import Mathlib

/-!
Verification of the journalist-interface core (`securedrop/journalist.py`)
against its natural-language specification.

The Python module is shallowly embedded: database rows become structures,
query-plus-mutate request handlers become pure functions from explicit state
to explicit state plus observable outputs, and fallible steps (SQLAlchemy
`one()`, filesystem renames, archive construction) return `Option`.
External collaborators whose source is not part of the embedded module
(`store`, `crypto_util`, `db` model internals, `worker`) are either taken as
function parameters or modelled from the specification; each such definition
says so in its doc comment.
-/

namespace SecureDropJournalist

/-- A row of the `journalists` table (the spec's User / Credential Store entry):
primary key, unique username, administrative flag, and whether the second
factor is time-based (`is_totp`) rather than event-based. -/
structure Journalist where
  id : Nat
  username : String
  is_admin : Bool
  is_totp : Bool
  deriving Repr, DecidableEq

/-- A row of the `sources` table (the spec's Source Collection): primary key,
immutable filesystem identifier, rotating human-readable designation,
interaction counter, and the pending / flagged flags. -/
structure Source where
  id : Nat
  filesystem_id : String
  journalist_designation : String
  interaction_count : Nat
  pending : Bool
  flagged : Bool
  deriving Repr, DecidableEq

/-- A row of the `submissions` table: primary key, owning source, filename
(with the sequence number embedded as its leading digits), downloaded flag. -/
structure Submission where
  id : Nat
  source_id : Nat
  filename : String
  downloaded : Bool
  deriving Repr, DecidableEq

/-- A row of the `source_stars` table: at most one per source, boolean state. -/
structure SourceStar where
  source_id : Nat
  starred : Bool
  deriving Repr, DecidableEq

/-- A row of the `replies` table: author, target source, stored filename. -/
structure ReplyRecord where
  journalist_id : Nat
  source_id : Nat
  filename : String
  deriving Repr, DecidableEq

/-- SQLAlchemy `query.filter(...).one()` over the journalists table: succeeds
exactly when precisely one row matches the username. -/
def queryOneJournalist (js : List Journalist) (uname : String) : Option Journalist :=
  match js.filter (fun u => u.username == uname) with
  | [u] => some u
  | _ => none

/-- Modelled from the spec: `Journalist._LOGIN_ATTEMPT_PERIOD` lives in the
`db` module, which is not part of the embedded source; the spec's throttling
scenario fixes the cooldown at 60 seconds. -/
def LOGIN_ATTEMPT_PERIOD : Nat := 60

/-- The message flashed by the `except` branch of `login` (journalist.py
111-130): start from "Login failed."; a throttled failure appends the wait
notice; otherwise the handler re-queries the username with `.one()` inside a
bare try/except and, when exactly one user exists and uses time-based tokens,
appends the TOTP wait hint. -/
def loginFlashedMsg (js : List Journalist) (uname : String) (throttled : Bool) : String :=
  let base := "Login failed."
  if throttled then
    base ++ " Please wait at least " ++ toString LOGIN_ATTEMPT_PERIOD ++
      " seconds before logging in again."
  else
    match queryOneJournalist js uname with
    | some user =>
        if user.is_totp then
          base ++ " Please wait for a new two-factor token before logging in again."
        else base
    | none => base

/-- `setup_g` (journalist.py 58-69), user part: a session uid, when present and
truthy, is resolved through `Journalist.query.get` (primary-key lookup), which
yields `None` for a deleted user. -/
def setup_g_user (js : List Journalist) (session_uid : Option Nat) : Option Journalist :=
  match session_uid with
  | some uid => if uid = 0 then none else js.find? (fun j => j.id == uid)
  | none => none

/-- `logged_in` (journalist.py 72-80): truthiness of `g.user`. -/
def logged_in (js : List Journalist) (session_uid : Option Nat) : Bool :=
  (setup_g_user js session_uid).isSome

/-- Outcome of a request guarded by the `login_required` decorator: either the
redirect to the login view, or the wrapped handler's result. -/
inductive Routed (α : Type) where
  | redirectLogin
  | ran (a : α)
  deriving Repr, DecidableEq

/-- The `login_required` decorator (journalist.py 83-89): run the wrapped
handler only when `logged_in()` holds, otherwise redirect to `login`. -/
def login_required {α : Type} (js : List Journalist) (session_uid : Option Nat)
    (handler : α) : Routed α :=
  if logged_in js session_uid then Routed.ran handler else Routed.redirectLogin

/-- Substring occurrence over character lists: `pat` occurs somewhere in the list. -/
def hasSubList (pat : List Char) : List Char → Bool
  | [] => pat.isEmpty
  | c :: rest => pat.isPrefixOf (c :: rest) || hasSubList pat rest

/-- Python's `'..' in fn` substring test. -/
def containsSub (s pat : String) : Bool := hasSubList pat.toList s.toList

/-- `store.path(sid, fn)`: the Content Store's path builder (external
collaborator); joins the collection identifier and filename. -/
def storePath (sid fn : String) : String := sid ++ "/" ++ fn

/-- Outcome of `download_single_submission`: a 404 abort (no query, no marking,
no content-store access), the file being sent together with the resulting
submissions table and whether the mark-as-downloaded step failed and was only
logged, or an uncaught `MultipleResultsFound` (HTTP 500). -/
inductive SingleDownload where
  | abort404
  | sent (path : String) (subs : List Submission) (markFailedLogged : Bool)
  | serverError
  deriving Repr, DecidableEq

/-- `download_single_submission` (journalist.py 575-589): reject traversal
filenames first; then mark the unique row with this filename downloaded
(`NoResultFound` is caught and logged, the file is still sent); then send the
file at `store.path(sid, fn)`. -/
def download_single_submission (subs : List Submission) (sid fn : String) : SingleDownload :=
  if containsSub fn ".." || fn.startsWith "/" then SingleDownload.abort404
  else
    match subs.filter (fun s => s.filename == fn) with
    | [] => SingleDownload.sent (storePath sid fn) subs true
    | [_] =>
        SingleDownload.sent (storePath sid fn)
          (subs.map (fun s => if s.filename == fn then { s with downloaded := true } else s))
          false
    | _ => SingleDownload.serverError

/-- Modelled from the spec: `db.Source.journalist_filename` is defined in the
`db` module, not part of the embedded source; per the spec it is the
filesystem-safe encoding of the current designation (lowercased, spaces to
underscores, restricted alphabet). -/
def journalist_filename (designation : String) : String :=
  String.mk (((designation.toLower).replace " " "_").toList.filter
    (fun c => c.isLower || c = '_'))

/-- The reply filename derived in `reply` (journalist.py 615-616):
`"{count}-{journalist_filename}-reply.gpg"`. -/
def replyFilename (count : Nat) (designation : String) : String :=
  toString count ++ "-" ++ journalist_filename designation ++ "-reply.gpg"

/-- The arguments of the single `crypto_util.encrypt` call made by `reply`:
plaintext, recipient keys, output path. -/
structure EncryptCall where
  plaintext : String
  recipients : List String
  outputPath : String
  deriving Repr, DecidableEq

/-- Outcome of the `reply` handler: rejection of an empty message (no state
change, no encryption, no record), or acceptance carrying the updated source
row, the encryption call performed, and the Reply row handed to the session. -/
inductive ReplyResult where
  | rejected (flashMsg : String)
  | sent (newSource : Source) (enc : EncryptCall) (rec : ReplyRecord)
  deriving Repr, DecidableEq

/-- `reply` (journalist.py 592-638), up to the session commit: reject empty
messages before touching any state; otherwise increment the source's
interaction counter, derive the filename from the new counter value and the
current designation, encrypt to the source's key (`crypto_util.getkey(sid)`,
external, taken as the parameter `getkey`) and the institutional
`config.JOURNALIST_KEY` (parameter `journalistKey`), writing to
`store.path(sid, filename)`, and build the Reply row. -/
def reply (getkey : String → String) (journalistKey : String)
    (user : Journalist) (source : Source) (sid : String) (msg : String) : ReplyResult :=
  if msg = "" then ReplyResult.rejected "You cannot send an empty reply!"
  else
    let source' := { source with interaction_count := source.interaction_count + 1 }
    let filename := replyFilename source'.interaction_count source'.journalist_designation
    ReplyResult.sent source'
      ⟨msg, [getkey sid, journalistKey], storePath sid filename⟩
      ⟨user.id, source.id, filename⟩

/-- Modelled from the spec: `store.get_bulk_archive` (the Content Store's
`buildArchive`), whose source is not under the embedded module: on success it
produces an archive containing exactly the given submissions' backing files;
`archiveOk` abstracts whether the build succeeds. -/
def get_bulk_archive (archiveOk : Bool) (subs : List Submission) : Option (List String) :=
  if archiveOk then some (subs.map (fun s => s.filename)) else none

/-- Outcome of a bulk export: the empty-selection no-op notification flashed to
the caller, the archive sent together with the submissions marked downloaded,
or a failed archive build (the exception propagates before any marking). -/
inductive ExportResult where
  | emptyNotice (msg : String)
  | archiveSent (files : List String) (marked : List Submission)
  | buildFailed
  deriving Repr, DecidableEq

/-- `download` (journalist.py 722-745): build the archive first; only then mark
every submission in the selection downloaded and commit; if the build raises,
the marking loop is never reached. -/
def download (archiveOk : Bool) (subs : List Submission) : ExportResult :=
  match get_bulk_archive archiveOk subs with
  | none => ExportResult.buildFailed
  | some files =>
      ExportResult.archiveSent files (subs.map (fun s => { s with downloaded := true }))

/-- SQLAlchemy `Source.query.filter(Source.filesystem_id == sid).one().id`
(raises unless exactly one row matches). -/
def sourceIdByFsid (db_sources : List Source) (sid : String) : Option Nat :=
  match db_sources.filter (fun s => s.filesystem_id == sid) with
  | [s] => some s.id
  | _ => none

/-- The unread-submission query of `col_download_unread` for one source id. -/
def unreadSubmissionsFor (db_subs : List Submission) (id : Nat) : List Submission :=
  db_subs.filter (fun sub => !sub.downloaded && sub.source_id == id)

/-- The all-submission query of `col_download_all` for one source id. -/
def allSubmissionsFor (db_subs : List Submission) (id : Nat) : List Submission :=
  db_subs.filter (fun sub => sub.source_id == id)

/-- The accumulation loop shared by `col_download_unread` and
`col_download_all`: resolve each selected collection identifier with `.one()`
and concatenate the per-source query results in order. -/
def collectSubs (db_sources : List Source) (per : Nat → List Submission) :
    List String → Option (List Submission)
  | [] => some []
  | sid :: rest =>
      match sourceIdByFsid db_sources sid with
      | none => none
      | some id =>
          match collectSubs db_sources per rest with
          | none => none
          | some more => some (per id ++ more)

/-- `col_download_unread` (journalist.py 510-520): gather unread submissions of
the selected collections; flash the no-op notice when the set is empty,
otherwise hand the set to `download`. -/
def col_download_unread (archiveOk : Bool) (db_sources : List Source)
    (db_subs : List Submission) (cols : List String) : Option ExportResult :=
  match collectSubs db_sources (unreadSubmissionsFor db_subs) cols with
  | none => none
  | some subs =>
      if subs = [] then
        some (ExportResult.emptyNotice "No unread submissions in collections selected!")
      else some (download archiveOk subs)

/-- `col_download_all` (journalist.py 523-529): gather all submissions of the
selected collections and hand the set to `download` — there is no empty-set
check on this path. -/
def col_download_all (archiveOk : Bool) (db_sources : List Source)
    (db_subs : List Submission) (cols : List String) : Option ExportResult :=
  match collectSubs db_sources (allSubmissionsFor db_subs) cols with
  | none => none
  | some subs => some (download archiveOk subs)

/-- Modelled from the spec: `db.Source.collection` (the `db` module is not
part of the embedded source); per the spec it is the submissions belonging to
the source. -/
def collectionOf (db_subs : List Submission) (src : Source) : List Submission :=
  db_subs.filter (fun sub => sub.source_id == src.id)

/-- The explicit-filename download path of `bulk` (journalist.py 675-698,
action `download`): filter the source's collection by the submitted filename
set; flash the no-op notice when the selection is empty, otherwise hand the
selection to `download`. -/
def bulk_download (archiveOk : Bool) (db_subs : List Submission) (src : Source)
    (doc_names : List String) : ExportResult :=
  let selected := (collectionOf db_subs src).filter (fun d => doc_names.contains d.filename)
  if selected = [] then ExportResult.emptyNotice "No collections selected to download!"
  else download archiveOk selected

/-- C5: sendReply with empty plaintext is rejected with the validation flash,
and the `rejected` outcome carries no updated source, no encryption call and
no Reply record — the counter is untouched, nothing is encrypted, nothing is
persisted. -/
theorem c5_empty_reply_rejected (getkey : String → String) (journalistKey : String)
    (user : Journalist) (source : Source) (sid : String) :
    reply getkey journalistKey user source sid "" =
      ReplyResult.rejected "You cannot send an empty reply!" := by
  simp [reply]

/-- C6: an accepted (non-empty) reply increments the interaction counter by
exactly one, derives the filename from the new counter value and the current
designation, encrypts the plaintext to the source's public key and the
institutional key, writes to the source's path, and builds a Reply record
referencing that filename. -/
theorem c6_reply_accepted (getkey : String → String) (journalistKey : String)
    (user : Journalist) (source : Source) (sid msg : String) (h : msg ≠ "") :
    ∃ source' enc rec,
      reply getkey journalistKey user source sid msg = ReplyResult.sent source' enc rec ∧
      source'.interaction_count = source.interaction_count + 1 ∧
      rec.filename = replyFilename (source.interaction_count + 1) source.journalist_designation ∧
      enc.plaintext = msg ∧
      enc.recipients = [getkey sid, journalistKey] ∧
      enc.outputPath = storePath sid rec.filename ∧
      rec.journalist_id = user.id ∧ rec.source_id = source.id := by
  refine ⟨{ source with interaction_count := source.interaction_count + 1 },
    ⟨msg, [getkey sid, journalistKey],
      storePath sid (replyFilename (source.interaction_count + 1) source.journalist_designation)⟩,
    ⟨user.id, source.id, replyFilename (source.interaction_count + 1) source.journalist_designation⟩,
    ?_, rfl, rfl, rfl, rfl, rfl, rfl, rfl⟩
  simp [reply, h]

/-- Witness for C6 at a concrete accepted reply. -/
theorem c6_reply_accepted_witness :
    ∃ source' enc rec,
      reply (fun sid => "pub-" ++ sid) "JKEY" ⟨7, "jo", false, false⟩
          ⟨3, "fsid3", "quiet harbor", 4, false, false⟩ "fsid3" "hello" =
        ReplyResult.sent source' enc rec ∧
      source'.interaction_count = 4 + 1 ∧
      rec.filename = replyFilename (4 + 1) "quiet harbor" ∧
      enc.plaintext = "hello" ∧
      enc.recipients = [(fun sid => "pub-" ++ sid) "fsid3", "JKEY"] ∧
      enc.outputPath = storePath "fsid3" rec.filename ∧
      rec.journalist_id = 7 ∧ rec.source_id = 3 :=
  c6_reply_accepted (fun sid => "pub-" ++ sid) "JKEY" ⟨7, "jo", false, false⟩
    ⟨3, "fsid3", "quiet harbor", 4, false, false⟩ "fsid3" "hello" (by decide)

/-- C9: a single-submission download whose filename contains `..` or starts
with `/` aborts with 404; the `abort404` outcome carries no query result, no
changed submissions table and no content-store path. -/
theorem c9_traversal_aborts (subs : List Submission) (sid fn : String)
    (h : containsSub fn ".." = true ∨ fn.startsWith "/" = true) :
    download_single_submission subs sid fn = SingleDownload.abort404 := by
  unfold download_single_submission
  rcases h with h | h <;> simp [h]

/-- Witness for C9 on a concrete traversal filename. -/
theorem c9_traversal_aborts_witness :
    download_single_submission [] "sid1" "../../etc/key" = SingleDownload.abort404 :=
  c9_traversal_aborts [] "sid1" "../../etc/key" (Or.inl (by decide))

/-- C10: when the session's stored uid no longer resolves to an existing
Journalist row, a login-protected handler redirects to login and the wrapped
handler's result is not produced. -/
theorem c10_deleted_user_redirects {α : Type} (js : List Journalist) (uid : Nat)
    (handler : α) (h : ∀ j ∈ js, j.id ≠ uid) :
    login_required js (some uid) handler = Routed.redirectLogin := by
  unfold login_required logged_in setup_g_user
  have hfind : js.find? (fun j => j.id == uid) = none := by
    rw [List.find?_eq_none]
    intro j hj
    simpa using h j hj
  by_cases h0 : uid = 0 <;> simp [h0, hfind]

/-- Witness for C10: a session uid of a deleted user among one surviving user. -/
theorem c10_deleted_user_redirects_witness :
    login_required [⟨1, "alice", false, false⟩] (some 2) (0 : Nat) = Routed.redirectLogin :=
  c10_deleted_user_redirects [⟨1, "alice", false, false⟩] 2 0 (by decide)

/-- C1 fails as stated: for an existing user with a time-based second factor,
the non-throttled failure message carries the TOTP hint, while an unknown
username yields the bare message — the visible messages differ. -/
theorem c1_counterexample :
    loginFlashedMsg [⟨1, "alice", false, true⟩] "alice" false ≠
      loginFlashedMsg [⟨1, "alice", false, true⟩] "bob" false := by
  decide

/-- C1 amended: the visible failure message is the bare "Login failed." — and
hence identical — whenever the submitted username is unknown or belongs to a
user without time-based second factor; only an existing TOTP user's failure
appends the distinguishing hint. -/
theorem c1_amended_non_totp_indistinguishable (js : List Journalist) (uname : String)
    (h : ∀ u ∈ js, u.username = uname → u.is_totp = false) :
    loginFlashedMsg js uname false = "Login failed." := by
  unfold loginFlashedMsg queryOneJournalist
  simp only [Bool.false_eq_true, if_false]
  cases hf : js.filter (fun u => u.username == uname) with
  | nil => simp
  | cons u rest =>
    cases rest with
    | nil =>
        have hu : u ∈ js.filter (fun u => u.username == uname) := by
          rw [hf]; exact List.mem_singleton.mpr rfl
        have hmem := List.mem_filter.mp hu
        have htotp := h u hmem.1 (by simpa using hmem.2)
        simp [htotp]
    | cons v rest2 => simp

/-- Witness for the amended C1: an unknown username and an existing
event-based-token user flash the identical bare message. -/
theorem c1_amended_witness :
    loginFlashedMsg [⟨1, "alice", false, false⟩] "bob" false = "Login failed." ∧
    loginFlashedMsg [⟨1, "alice", false, false⟩] "alice" false = "Login failed." :=
  ⟨c1_amended_non_totp_indistinguishable [⟨1, "alice", false, false⟩] "bob" (by decide),
   c1_amended_non_totp_indistinguishable [⟨1, "alice", false, false⟩] "alice" (by decide)⟩

/-- C2 fails as stated for export-all: a selected collection whose resolved
submission set is empty is handed to `download` anyway — `col_download_all`
has no empty-set check — so an (empty) archive outcome is produced instead of
the no-op empty-selection notification. -/
theorem c2_counterexample :
    col_download_all true [⟨1, "c1", "old name", 0, false, false⟩] [] ["c1"] =
      some (ExportResult.archiveSent [] []) := by
  decide

/-- C2 amended: export-unread and explicit filename selection fail with the
no-op empty-selection notification on an empty resolved set (building no
archive and marking nothing), but export-all performs no empty-selection
check and builds an archive even for an empty set (marking nothing). -/
theorem c2_empty_selection_amended (archiveOk : Bool) (db_sources : List Source)
    (db_subs : List Submission) (cols : List String) (src : Source) (docs : List String) :
    (collectSubs db_sources (unreadSubmissionsFor db_subs) cols = some [] →
      col_download_unread archiveOk db_sources db_subs cols =
        some (ExportResult.emptyNotice "No unread submissions in collections selected!")) ∧
    ((collectionOf db_subs src).filter (fun d => docs.contains d.filename) = [] →
      bulk_download archiveOk db_subs src docs =
        ExportResult.emptyNotice "No collections selected to download!") ∧
    (collectSubs db_sources (allSubmissionsFor db_subs) cols = some [] →
      col_download_all true db_sources db_subs cols =
        some (ExportResult.archiveSent [] [])) := by
  refine ⟨?_, ?_, ?_⟩
  · intro h
    simp [col_download_unread, h]
  · intro h
    simp only [bulk_download]
    rw [h]
    simp
  · intro h
    simp [col_download_all, h, download, get_bulk_archive]

/-- Witness for the amended C2 on concrete empty selections. -/
theorem c2_empty_selection_amended_witness :
    col_download_unread true [⟨1, "c1", "old name", 0, false, false⟩] [] ["c1"] =
      some (ExportResult.emptyNotice "No unread submissions in collections selected!") ∧
    bulk_download true [] ⟨1, "c1", "old name", 0, false, false⟩ ["x.gpg"] =
      ExportResult.emptyNotice "No collections selected to download!" ∧
    col_download_all true [⟨1, "c1", "old name", 0, false, false⟩] [] ["c1"] =
      some (ExportResult.archiveSent [] []) :=
  ⟨(c2_empty_selection_amended true [⟨1, "c1", "old name", 0, false, false⟩] [] ["c1"]
      ⟨1, "c1", "old name", 0, false, false⟩ ["x.gpg"]).1 (by decide),
   (c2_empty_selection_amended true [⟨1, "c1", "old name", 0, false, false⟩] [] ["c1"]
      ⟨1, "c1", "old name", 0, false, false⟩ ["x.gpg"]).2.1 (by decide),
   (c2_empty_selection_amended true [⟨1, "c1", "old name", 0, false, false⟩] [] ["c1"]
      ⟨1, "c1", "old name", 0, false, false⟩ ["x.gpg"]).2.2 (by decide)⟩

/-- C4: a bulk export only ever reaches an archive-sent outcome when the
archive build succeeded, and every submission marked downloaded by it has its
backing file in the returned archive; a failed build yields `buildFailed`,
which marks nothing. -/
theorem c4_mark_only_after_archive (archiveOk : Bool) (subs : List Submission)
    (files : List String) (marked : List Submission)
    (h : download archiveOk subs = ExportResult.archiveSent files marked) :
    archiveOk = true ∧ ∀ item ∈ marked, item.downloaded = true ∧ item.filename ∈ files := by
  cases archiveOk
  · simp [download, get_bulk_archive] at h
  · refine ⟨rfl, ?_⟩
    simp only [download, get_bulk_archive, if_true, ExportResult.archiveSent.injEq] at h
    obtain ⟨hf, hm⟩ := h
    subst hf
    subst hm
    intro item hmem
    rw [List.mem_map] at hmem
    obtain ⟨s, hs, rfl⟩ := hmem
    refine ⟨rfl, ?_⟩
    show s.filename ∈ subs.map fun s => s.filename
    exact List.mem_map_of_mem _ hs

/-- Witness for C4 on a concrete successful export of one submission. -/
theorem c4_mark_only_after_archive_witness :
    true = true ∧ ∀ item ∈ [(⟨1, 3, "1-x-doc.gpg", true⟩ : Submission)],
      item.downloaded = true ∧ item.filename ∈ ["1-x-doc.gpg"] :=
  c4_mark_only_after_archive true [⟨1, 3, "1-x-doc.gpg", false⟩] ["1-x-doc.gpg"]
    [⟨1, 3, "1-x-doc.gpg", true⟩] (by decide)

/-- An observable effect of the collection-deletion pipeline: enqueueing an
asynchronous task with the Async Task Dispatcher, synchronously destroying a
keypair through the Encryption Gateway, deleting a database row, committing,
or awaiting a task handle (which `delete_collection` never does). -/
inductive LifecycleEvent where
  | enqueueTask (task : String) (arg : String)
  | destroyKeypair (sid : String)
  | dbDelete (source_id : Nat)
  | dbCommit
  | awaitTask (job : String)
  deriving Repr, DecidableEq

/-- The task handle returned by `worker.enqueue` (external collaborator):
identifies the enqueued task without exposing its completion. -/
def jobHandle (task arg : String) : String := "job:" ++ task ++ ":" ++ arg

/-- `get_source` (journalist.py 48-55): `get_one_or_else` succeeds exactly when
one row matches the filesystem identifier, aborting otherwise. -/
def get_source (db_sources : List Source) (sid : String) : Option Source :=
  match db_sources.filter (fun s => s.filesystem_id == sid) with
  | [s] => some s
  | _ => none

/-- Outcome of `delete_collection`: the ordered effect trace, the surviving
source rows and the task handle, or an abort after the first two steps when
the source row is missing. -/
inductive DeleteOutcome where
  | done (events : List LifecycleEvent) (remaining : List Source) (job : String)
  | sourceMissing (events : List LifecycleEvent)
  deriving Repr, DecidableEq

/-- `delete_collection` (journalist.py 475-486): (1) enqueue the asynchronous
secure-erase of the collection directory (`store.delete_source_directory`)
with the worker, keeping the returned job handle; (2) synchronously destroy
the reply keypair (`crypto_util.delete_reply_keypair`); (3) look up, delete
and commit the source's database row; finally return the job handle without
awaiting the task. -/
def delete_collection (db_sources : List Source) (sid : String) : DeleteOutcome :=
  let ev1 := LifecycleEvent.enqueueTask "store.delete_source_directory" sid
  let job := jobHandle "store.delete_source_directory" sid
  let ev2 := LifecycleEvent.destroyKeypair sid
  match get_source db_sources sid with
  | none => DeleteOutcome.sourceMissing [ev1, ev2]
  | some src =>
      DeleteOutcome.done
        [ev1, ev2, LifecycleEvent.dbDelete src.id, LifecycleEvent.dbCommit]
        (db_sources.filter (fun s => !(s.filesystem_id == sid)))
        job

/-- C7: deleting an existing collection produces exactly the trace
enqueue-erase, then destroy-keypair, then delete-record-and-commit, in that
order, returns the enqueued task's handle, and never awaits the task. -/
theorem c7_delete_pipeline_order (db_sources : List Source) (sid : String) (src : Source)
    (h : get_source db_sources sid = some src) :
    ∃ evs remaining job,
      delete_collection db_sources sid = DeleteOutcome.done evs remaining job ∧
      evs = [LifecycleEvent.enqueueTask "store.delete_source_directory" sid,
             LifecycleEvent.destroyKeypair sid,
             LifecycleEvent.dbDelete src.id,
             LifecycleEvent.dbCommit] ∧
      job = jobHandle "store.delete_source_directory" sid ∧
      (∀ j, LifecycleEvent.awaitTask j ∉ evs) := by
  refine ⟨[LifecycleEvent.enqueueTask "store.delete_source_directory" sid,
           LifecycleEvent.destroyKeypair sid,
           LifecycleEvent.dbDelete src.id,
           LifecycleEvent.dbCommit],
    db_sources.filter (fun s => !(s.filesystem_id == sid)),
    jobHandle "store.delete_source_directory" sid, ?_, rfl, rfl, ?_⟩
  · simp [delete_collection, h]
  · intro j
    simp

/-- Witness for C7 on a concrete one-source database. -/
theorem c7_delete_pipeline_order_witness :
    ∃ evs remaining job,
      delete_collection [⟨5, "s1", "old name", 0, false, false⟩] "s1" =
        DeleteOutcome.done evs remaining job ∧
      evs = [LifecycleEvent.enqueueTask "store.delete_source_directory" "s1",
             LifecycleEvent.destroyKeypair "s1",
             LifecycleEvent.dbDelete 5,
             LifecycleEvent.dbCommit] ∧
      job = jobHandle "store.delete_source_directory" "s1" ∧
      (∀ j, LifecycleEvent.awaitTask j ∉ evs) :=
  c7_delete_pipeline_order [⟨5, "s1", "old name", 0, false, false⟩] "s1"
    ⟨5, "s1", "old name", 0, false, false⟩ (by decide)

/-- The leading decimal digits of a filename — the submission's embedded
sequence number, which `store.rename_submission` preserves. -/
def digitsOf (fn : String) : String := String.mk (fn.toList.takeWhile Char.isDigit)

/-- The filename component after the last dash (the whole name when there is
none) — the type tag (`doc.gpg`, `reply.gpg`, `msg.gpg`) that
`store.rename_submission` keeps. -/
def typeTag (fn : String) : String :=
  let rev := fn.toList.reverse
  if rev.contains '-' then String.mk ((rev.takeWhile (fun c => c != '-')).reverse) else fn

/-- Modelled from the spec: `store.rename_submission` (the Content Store's
`rename`), whose source is not under the embedded module: it renames the
submission's backing file so that the new filename embeds the new designation
while preserving the embedded sequence number and type tag, and the
underlying file operation may fail — `fsOk` abstracts which physical renames
succeed, a failure raising out of the caller. -/
def rename_submission (fsOk : String → Bool) (fn : String) (newJf : String) : Option String :=
  if fsOk fn then some (digitsOf fn ++ "-" ++ newJf ++ "-" ++ typeTag fn) else none

/-- The rename loop of `generate_code` (journalist.py 647-651): rename every
submission of the collection in order, failing the whole pass when any single
file rename fails. -/
def renameAll (fsOk : String → Bool) (jf : String) : List Submission → Option (List Submission)
  | [] => some []
  | item :: rest =>
      (rename_submission fsOk item.filename jf).bind fun fn' =>
        (renameAll fsOk jf rest).map fun rest' => { item with filename := fn' } :: rest'

/-- `generate_code` (journalist.py 641-659): assign a fresh designation (from
`crypto_util.display_id`, external, taken as the parameter `newDesignation`),
rename every submission's backing file to the designation's filesystem-safe
form, then commit designation and filenames together. The returned value is
the committed (source, collection) state: when any file rename raises, the
commit on line 652 is never reached and the session's uncommitted attribute
changes are discarded at request teardown (`shutdown_session`), so `none`
means the database state is unchanged. -/
def generate_code (fsOk : String → Bool) (newDesignation : String)
    (src : Source) (coll : List Submission) : Option (Source × List Submission) :=
  let src' := { src with journalist_designation := newDesignation }
  match renameAll fsOk (journalist_filename newDesignation) coll with
  | none => none
  | some coll' => some (src', coll')

/-- Every collection produced by a successful rename pass has the same number
of submissions and every resulting filename embeds the new filesystem-safe
designation between dashes. -/
theorem renameAll_spec (fsOk : String → Bool) (jf : String) :
    ∀ coll coll', renameAll fsOk jf coll = some coll' →
      coll'.length = coll.length ∧
      ∀ item ∈ coll', ∃ pre post, item.filename = pre ++ "-" ++ jf ++ "-" ++ post := by
  intro coll
  induction coll with
  | nil =>
      intro coll' h
      simp only [renameAll, Option.some.injEq] at h
      subst h
      exact ⟨rfl, by intro item hit; cases hit⟩
  | cons item rest ih =>
      intro coll' h
      simp only [renameAll] at h
      cases hr : rename_submission fsOk item.filename jf with
      | none => rw [hr] at h; cases h
      | some fn' =>
          rw [hr] at h
          simp only [Option.some_bind] at h
          cases hrest : renameAll fsOk jf rest with
          | none => rw [hrest] at h; cases h
          | some rest' =>
              rw [hrest] at h
              simp only [Option.map_some', Option.some.injEq] at h
              subst h
              obtain ⟨hl, hm⟩ := ih rest' hrest
              refine ⟨by simp [hl], ?_⟩
              intro it hit
              rcases List.mem_cons.mp hit with hhead | htail
              · subst hhead
                unfold rename_submission at hr
                cases hok : fsOk item.filename with
                | false => rw [hok] at hr; cases hr
                | true =>
                    rw [hok] at hr
                    simp only [if_true, Option.some.injEq] at hr
                    exact ⟨digitsOf item.filename, typeTag item.filename, by rw [← hr]⟩
              · exact hm it htail

/-- C3: a codename rotation either commits a state in which the designation is
the new one and every submission's filename embeds the new designation's
filesystem-safe form (with the collection intact), or — when any individual
file rename fails — commits nothing, leaving designation and all filenames
unchanged in the database. -/
theorem c3_rename_all_or_nothing (fsOk : String → Bool) (newDesignation : String)
    (src : Source) (coll : List Submission) :
    (∃ src' coll', generate_code fsOk newDesignation src coll = some (src', coll') ∧
      src'.journalist_designation = newDesignation ∧
      coll'.length = coll.length ∧
      ∀ item ∈ coll', ∃ pre post,
        item.filename = pre ++ "-" ++ journalist_filename newDesignation ++ "-" ++ post) ∨
    generate_code fsOk newDesignation src coll = none := by
  cases hr : renameAll fsOk (journalist_filename newDesignation) coll with
  | none =>
      right
      simp [generate_code, hr]
  | some coll' =>
      left
      obtain ⟨hl, hm⟩ := renameAll_spec fsOk (journalist_filename newDesignation) coll coll' hr
      refine ⟨{ src with journalist_designation := newDesignation }, coll', ?_, rfl, hl, hm⟩
      simp [generate_code, hr]

/-- The `source.star` relationship: the star row belonging to a source. -/
def findStar (stars : List SourceStar) (source_id : Nat) : Option SourceStar :=
  stars.find? (fun st => st.source_id == source_id)

/-- The in-place mutation `source.star.starred = b`, expressed as an update of
the source's star row. -/
def updStar (source_id : Nat) (b : Bool) (st : SourceStar) : SourceStar :=
  if st.source_id == source_id then { st with starred := b } else st

/-- Modelled from the spec: the `SourceStar` constructor lives in the `db`
module, not part of the embedded source; per the spec the star record is
created lazily on first use and `make_star_true` relies on the fresh record
carrying the requested starred state, so creation yields a starred row. -/
def newStar (source_id : Nat) : SourceStar := ⟨source_id, true⟩

/-- `make_star_true` (journalist.py 408-414): set the existing star row's
boolean, or lazily add a fresh star row. -/
def make_star_true (stars : List SourceStar) (source_id : Nat) : List SourceStar :=
  match findStar stars source_id with
  | some _ => stars.map (updStar source_id true)
  | none => stars ++ [newStar source_id]

/-- `make_star_false` (journalist.py 417-423): lazily add (and commit) a fresh
star row when none exists, then set the source's star row to unstarred. -/
def make_star_false (stars : List SourceStar) (source_id : Nat) : List SourceStar :=
  match findStar stars source_id with
  | some _ => stars.map (updStar source_id false)
  | none => (stars ++ [newStar source_id]).map (updStar source_id false)

/-- The star/unstar operation pair (`add_star` / `remove_star`,
journalist.py 426-439), as the spec's single `setStar(collectionId, bool)`. -/
def setStar (stars : List SourceStar) (source_id : Nat) (b : Bool) : List SourceStar :=
  if b then make_star_true stars source_id else make_star_false stars source_id

theorem updStar_idem (sid : Nat) (b : Bool) (st : SourceStar) :
    updStar sid b (updStar sid b st) = updStar sid b st := by
  obtain ⟨sid0, b0⟩ := st
  by_cases h : sid0 = sid <;> simp [updStar, h]

theorem map_updStar_idem (sid : Nat) (b : Bool) (stars : List SourceStar) :
    (stars.map (updStar sid b)).map (updStar sid b) = stars.map (updStar sid b) := by
  induction stars with
  | nil => rfl
  | cons st rest ih => simp [List.map_cons, updStar_idem, ih]

theorem findStar_map_upd (sid : Nat) (b : Bool) :
    ∀ stars : List SourceStar,
      findStar (stars.map (updStar sid b)) sid =
        (findStar stars sid).map (fun _ => (⟨sid, b⟩ : SourceStar)) := by
  intro stars
  induction stars with
  | nil => rfl
  | cons st rest ih =>
    obtain ⟨sid0, b0⟩ := st
    by_cases h : sid0 = sid
    · subst h
      simp [findStar, updStar, List.find?]
    · have hb : ((⟨sid0, b0⟩ : SourceStar).source_id == sid) = false := by
        simpa using h
      simp only [findStar] at ih ⊢
      simp [updStar, List.find?, hb, ih]

theorem map_updStar_not_found (sid : Nat) (b : Bool) :
    ∀ stars : List SourceStar, findStar stars sid = none →
      stars.map (updStar sid b) = stars := by
  intro stars
  induction stars with
  | nil => intro _; rfl
  | cons st rest ih =>
      intro h
      simp only [findStar, List.find?] at h
      cases hp : (st.source_id == sid) with
      | true => rw [hp] at h; cases h
      | false =>
          rw [hp] at h
          simp only [List.map_cons]
          rw [ih h]
          simp [updStar, hp]

theorem findStar_append_one (sid : Nat) (x : SourceStar) (hx : (x.source_id == sid) = true) :
    ∀ stars : List SourceStar, findStar stars sid = none →
      findStar (stars ++ [x]) sid = some x := by
  intro stars
  induction stars with
  | nil => intro _; simp [findStar, List.find?, hx]
  | cons st rest ih =>
      intro h
      simp only [findStar, List.find?] at h
      cases hp : (st.source_id == sid) with
      | true => rw [hp] at h; cases h
      | false =>
          rw [hp] at h
          simp only [findStar, List.cons_append, List.find?, hp]
          exact ih h

theorem setStar_of_found (stars : List SourceStar) (sid : Nat) (b : Bool) (st : SourceStar)
    (h : findStar stars sid = some st) :
    setStar stars sid b = stars.map (updStar sid b) := by
  cases b <;> simp [setStar, make_star_true, make_star_false, h]

theorem setStar_of_not_found (stars : List SourceStar) (sid : Nat) (b : Bool)
    (h : findStar stars sid = none) :
    setStar stars sid b = stars ++ [(⟨sid, b⟩ : SourceStar)] := by
  cases b
  · simp only [setStar, Bool.false_eq_true, if_false, make_star_false, h]
    rw [List.map_append, map_updStar_not_found sid false stars h]
    simp [updStar, newStar]
  · simp [setStar, make_star_true, h, newStar]

/-- C8: setStar is an idempotent upsert — after the operation the source's
star row exists and carries the requested boolean, and repeating the same
operation leaves the star table unchanged. -/
theorem c8_setStar_idempotent_upsert (stars : List SourceStar) (sid : Nat) (b : Bool) :
    findStar (setStar stars sid b) sid = some ⟨sid, b⟩ ∧
    setStar (setStar stars sid b) sid b = setStar stars sid b := by
  cases hf : findStar stars sid with
  | some st =>
      have h2 := setStar_of_found stars sid b st hf
      have h1 : findStar (setStar stars sid b) sid = some ⟨sid, b⟩ := by
        rw [h2, findStar_map_upd, hf]
        rfl
      refine ⟨h1, ?_⟩
      rw [setStar_of_found (setStar stars sid b) sid b ⟨sid, b⟩ h1, h2]
      exact map_updStar_idem sid b stars
  | none =>
      have h2 := setStar_of_not_found stars sid b hf
      have h1 : findStar (setStar stars sid b) sid = some ⟨sid, b⟩ := by
        rw [h2]
        exact findStar_append_one sid ⟨sid, b⟩ (by simp) stars hf
      refine ⟨h1, ?_⟩
      rw [setStar_of_found (setStar stars sid b) sid b ⟨sid, b⟩ h1, h2]
      rw [List.map_append, map_updStar_not_found sid b stars hf]
      simp [updStar]

end SecureDropJournalist
